import Mathlib

/-!
Verification of the DDBot scraper/scheduler/history code.

The Python sources (`ddbot/scraper.py`, `ddbot/history.py`, `ddbot/main.py`)
are shallowly embedded below.  Pure parsing helpers become Lean functions on
`List Char`; the regular expressions used by the source are hand-compiled to
deterministic scanners that implement the same leftmost / greedy semantics on
the concrete patterns; network, browser and clock effects are passed in as
explicit data (a fetched response, a live page snapshot, attempt oracles, an
integer wall clock).  Machine integers are modelled by `Int`/`Nat` (Python
integers are unbounded, so no wrap-around is needed), and fallible code
returns `Option`/`Except`.
-/

set_option autoImplicit false
set_option maxRecDepth 1000000

namespace DDBot

/-! ## scraper.py: constants and result record -/

/-- `_CF_CHALLENGE_MARKERS` from `scraper.py`. -/
def _CF_CHALLENGE_MARKERS : List String :=
  ["just a moment", "verify you are human", "checking your browser", "cf-challenge"]

/-- `CurlBlockedError(status_code, reason)` from `scraper.py`. -/
structure CurlBlockedError where
  status_code : Int
  reason : String
deriving Repr, DecidableEq

/-- `ScrapeResult` dataclass from `scraper.py`.  The `timestamp` field is
produced from the wall clock (`datetime.now`) in the source; the embedding
leaves it `""` since no claim depends on it. -/
structure ScrapeResult where
  service : String
  report_count : Int
  timestamp : String := ""
  status : String
  error : Option String := none
  source : String := "curl"
deriving Repr, DecidableEq

/-- `DownDetectorScraper._classify_status` from `scraper.py`. -/
def _classify_status (report_count : Int) : String :=
  if report_count < 10 then "ok"
  else if report_count < 50 then "warning"
  else "danger"

/-- The status translation table `{"success": "ok", "warning": "warning",
"danger": "danger"}` with `.get(_, None)`, as used (with identical literal
dictionaries) in both `_parse_service_properties` and
`_parse_properties_from_html`.  `none` models Python `None` (the spec's
"unknown"). -/
def status_map (token : String) : Option String :=
  if token = "success" then some "ok"
  else if token = "warning" then some "warning"
  else if token = "danger" then some "danger"
  else none

/-! ## scraper.py: `_parse_service_properties` (live embedded object) -/

/-- One element of `props["series"]["reports"]["data"]`.  `y = none` models a
point whose `"y"` key is missing (`.get("y", 0)` then defaults to 0). -/
structure DataPoint where
  x : String := ""
  y : Option Int := none
deriving Repr, DecidableEq

/-- The `window.DD.currentServiceProperties` object. `status = none` models a
missing `"status"` key (`props.get("status", "")` then yields `""`);
`data = none` models any `KeyError`/`TypeError` while evaluating
`props["series"]["reports"]["data"]` (caught in the source, count 0). -/
structure ServiceProps where
  status : Option String := none
  data : Option (List DataPoint) := none
deriving Repr, DecidableEq

/-- `DownDetectorScraper._parse_service_properties` from `scraper.py`:
returns `(report_count, page_status)`. -/
def _parse_service_properties (props : ServiceProps) : Int × Option String :=
  let page_status := status_map (props.status.getD "")
  let report_count : Int :=
    match props.data with
    | none => 0
    | some data_points =>
      match data_points.getLast? with
      | none => 0
      | some p => p.y.getD 0
  (report_count, page_status)

/-! ## Character-level helpers for the hand-compiled regular expressions -/

/-- Python `\s` (ASCII): space, tab, newline, carriage return, vertical tab,
form feed. -/
def pyIsSpace (c : Char) : Bool :=
  c = ' ' || c = '\t' || c = '\n' || c = '\r' || c = '\x0b' || c = '\x0c'

/-- ASCII decimal digit (`\d`). -/
def isDigitChar (c : Char) : Bool :=
  '0' ≤ c && c ≤ '9'

/-- Python `\w` (ASCII portion): letters, digits, underscore. -/
def isWordChar (c : Char) : Bool :=
  ('a' ≤ c && c ≤ 'z') || ('A' ≤ c && c ≤ 'Z') || isDigitChar c || c = '_'

/-- Drop the maximal run matching `\s*`. -/
def dropSpaces : List Char → List Char
  | [] => []
  | c :: cs => if pyIsSpace c then dropSpaces cs else c :: cs

/-- Match a literal pattern at the head of the input, returning the rest. -/
def matchLit : List Char → List Char → Option (List Char)
  | [], s => some s
  | _ :: _, [] => none
  | p :: ps, c :: cs => if p = c then matchLit ps cs else none

/-- Maximal prefix matching `\d*`, with the rest. -/
def takeDigits : List Char → List Char × List Char
  | [] => ([], [])
  | c :: cs =>
    if isDigitChar c then
      let r := takeDigits cs
      (c :: r.1, r.2)
    else ([], c :: cs)

/-- Maximal prefix matching `[\d,]*`, with the rest. -/
def takeDigitsCommas : List Char → List Char × List Char
  | [] => ([], [])
  | c :: cs =>
    if isDigitChar c || c = ',' then
      let r := takeDigitsCommas cs
      (c :: r.1, r.2)
    else ([], c :: cs)

/-- Maximal prefix matching `[^']*`, with the rest. -/
def takeNonQuote : List Char → List Char × List Char
  | [] => ([], [])
  | c :: cs =>
    if c = '\x27' then ([], c :: cs)
    else
      let r := takeNonQuote cs
      (c :: r.1, r.2)

/-- Maximal prefix matching `\w*`, with the rest. -/
def takeWordChars : List Char → List Char × List Char
  | [] => ([], [])
  | c :: cs =>
    if isWordChar c then
      let r := takeWordChars cs
      (c :: r.1, r.2)
    else ([], c :: cs)

/-- Decimal value of a digit list (digits guaranteed by the callers). -/
def digitsToNat (ds : List Char) : Nat :=
  ds.foldl (fun n c => n * 10 + (c.toNat - '0'.toNat)) 0

/-- `int(group.replace(",", ""))` for a `\d[\d,]*` capture. -/
def digitsCommasToNat (ds : List Char) : Nat :=
  digitsToNat (ds.filter (fun c => c ≠ ','))

/-- Prefix test used by `isSubstr`. -/
def isPrefixAt : List Char → List Char → Bool
  | [], _ => true
  | _ :: _, [] => false
  | p :: ps, c :: cs => p = c && isPrefixAt ps cs

/-- Python's `pat in s` substring test. -/
def isSubstr (pat : List Char) : List Char → Bool
  | [] => pat.isEmpty
  | c :: cs => isPrefixAt pat (c :: cs) || isSubstr pat cs

/-- `str.lower()` (ASCII portion, the only characters the markers use). -/
def lowerChars (s : List Char) : List Char :=
  s.map Char.toLower

/-- `str.lower()` on a `String` (service names in `history.py`). -/
def lowerStr (s : String) : String :=
  String.mk (lowerChars s.toList)

/-! ## scraper.py: `_parse_properties_from_html` (static regex fallback)

The source uses two regular expressions:

* `re.findall(r"\{\s*x:\s*'[^']+',\s*y:\s*(\d+)\s*\}", html)` — on this
  pattern every character class is disjoint from the literal that follows
  it, so the backtracking search is equivalent to the deterministic
  maximal-munch scanner `matchYPoint`/`findYValues` below (non-overlapping
  matches, left to right, captures in document order).
* `re.search(r"currentServiceProperties\s*=\s*\{[^}]*status:\s*'(\w+)'", html)`
  — here `[^}]*` is genuinely greedy-with-backtracking, compiled to
  `statusInBraceRegion` (longest consumption tried first), inside the
  leftmost-position search `searchStatus`.
-/

/-- Match `\{\s*x:\s*'[^']+',\s*y:\s*(\d+)\s*\}` at the head of the input,
returning the captured number and the rest of the input. -/
def matchYPoint (s : List Char) : Option (Nat × List Char) := do
  let s ← matchLit ['\x7b'] s
  let s := dropSpaces s
  let s ← matchLit ['x', ':'] s
  let s := dropSpaces s
  let s ← matchLit ['\x27'] s
  let content := takeNonQuote s
  if content.1.isEmpty then none
  else do
    let s ← matchLit ['\x27', ','] content.2
    let s := dropSpaces s
    let s ← matchLit ['y', ':'] s
    let s := dropSpaces s
    let digits := takeDigits s
    if digits.1.isEmpty then none
    else do
      let s := dropSpaces digits.2
      let s ← matchLit ['\x7d'] s
      some (digitsToNat digits.1, s)

/-- Non-overlapping left-to-right scan (`re.findall`); the fuel is an upper
bound on the number of scan steps, each of which consumes at least one
character. -/
def findYValuesAux : Nat → List Char → List Nat
  | 0, _ => []
  | _ + 1, [] => []
  | fuel + 1, c :: cs =>
    match matchYPoint (c :: cs) with
    | some (n, rest) => n :: findYValuesAux fuel rest
    | none => findYValuesAux fuel cs

/-- All `y:` captures of the data-point pattern, in document order. -/
def findYValues (s : List Char) : List Nat :=
  findYValuesAux s.length s

/-- Match `status:\s*'(\w+)'` at the head of the input, returning the
captured token. -/
def matchStatusTail (s : List Char) : Option (List Char) := do
  let s ← matchLit "status:".toList s
  let s := dropSpaces s
  let s ← matchLit ['\x27'] s
  let w := takeWordChars s
  if w.1.isEmpty then none
  else do
    let _ ← matchLit ['\x27'] w.2
    some w.1

/-- Greedy `[^}]*` followed by `matchStatusTail`: the longest consumption of
non-`}` characters is tried first, exactly like the backtracking engine. -/
def statusInBraceRegion : List Char → Option (List Char)
  | [] => none
  | c :: cs =>
    if c = '\x7d' then matchStatusTail (c :: cs)
    else (statusInBraceRegion cs).orElse (fun _ => matchStatusTail (c :: cs))

/-- Match the whole status pattern at the head of the input. -/
def matchStatusAt (s : List Char) : Option (List Char) := do
  let s ← matchLit "currentServiceProperties".toList s
  let s := dropSpaces s
  let s ← matchLit ['='] s
  let s := dropSpaces s
  let s ← matchLit ['\x7b'] s
  statusInBraceRegion s

/-- `re.search` for the status pattern: leftmost matching position wins. -/
def searchStatus : List Char → Option (List Char)
  | [] => none
  | c :: cs =>
    match matchStatusAt (c :: cs) with
    | some w => some w
    | none => searchStatus cs

/-- `DownDetectorScraper._parse_properties_from_html` from `scraper.py`. -/
def _parse_properties_from_html (html : List Char) : Option (Int × Option String) :=
  let page_status : Option String :=
    match searchStatus html with
    | some tok => status_map (String.mk tok)
    | none => none
  match (findYValues html).getLast? with
  | some y => some ((y : Int), page_status)
  | none => if page_status = some "ok" then some (0, page_status) else none

/-! ## scraper.py: `_parse_report_text` (plain-text heuristic)

`re.search(pattern, text, re.IGNORECASE)` for the three patterns
`(\d[\d,]*)\s*(?:user\s*)?reports?`, `reports?\s*[:=]\s*(\d[\d,]*)` and
`(\d[\d,]*)\s*problem`, tried in order.  Case-insensitivity is modelled by
lowering the text (all pattern literals are lower case and case-lowering
fixes digits, commas and spaces).  As above, the character classes are
disjoint from the literals that follow them, so maximal munch plus explicit
alternatives for the two optional pieces reproduces the backtracking
engine.  The captured group always has the shape `\d[\d,]*`, so the
source's `int(...)`/`ValueError` guard never fires and is dropped. -/

/-- Match `(\d[\d,]*)\s*(?:user\s*)?reports?` at the head of the input. -/
def matchReportsAt (s : List Char) : Option Nat :=
  match s with
  | [] => none
  | c :: cs =>
    if isDigitChar c then
      let grp := takeDigitsCommas cs
      let rest := dropSpaces grp.2
      let withUser : Option (List Char) := do
        let r ← matchLit "user".toList rest
        matchLit "report".toList (dropSpaces r)
      let direct := matchLit "report".toList rest
      if (withUser.orElse (fun _ => direct)).isSome then
        some (digitsCommasToNat (c :: grp.1))
      else none
    else none

/-- Match `reports?\s*[:=]\s*(\d[\d,]*)` at the head of the input. -/
def matchReportsColonAt (s : List Char) : Option Nat := do
  let r ← matchLit "report".toList s
  let afterS : List Char ← match r with
    | 's' :: r2 =>
      -- `s?` is greedy; the branch that skips a present `s` can never
      -- continue (`\s*[:=]` cannot match at `'s'`), matching the engine.
      some r2
    | _ => some r
  let r := dropSpaces afterS
  let r ← (matchLit [':'] r).orElse (fun _ => matchLit ['='] r)
  let r := dropSpaces r
  match r with
  | c :: cs =>
    if isDigitChar c then some (digitsCommasToNat (c :: (takeDigitsCommas cs).1))
    else none
  | [] => none

/-- Match `(\d[\d,]*)\s*problem` at the head of the input. -/
def matchProblemAt (s : List Char) : Option Nat :=
  match s with
  | [] => none
  | c :: cs =>
    if isDigitChar c then
      let grp := takeDigitsCommas cs
      if (matchLit "problem".toList (dropSpaces grp.2)).isSome then
        some (digitsCommasToNat (c :: grp.1))
      else none
    else none

/-- `re.search`: scan for the leftmost position where a pattern matches. -/
def searchFirst (try_at : List Char → Option Nat) : List Char → Option Nat
  | [] => try_at []
  | c :: cs =>
    match try_at (c :: cs) with
    | some n => some n
    | none => searchFirst try_at cs

/-- `DownDetectorScraper._parse_report_text` from `scraper.py`. -/
def _parse_report_text (text : List Char) : Option Nat :=
  let t := lowerChars text
  match searchFirst matchReportsAt t with
  | some n => some n
  | none =>
    match searchFirst matchReportsColonAt t with
    | some n => some n
    | none => searchFirst matchProblemAt t

/-! ## scraper.py: `_do_scrape_curl` (Tier 1) -/

/-- The part of a `curl_cffi` response that `_do_scrape_curl` reads. -/
structure CurlResponse where
  status_code : Int
  text : List Char

/-- Maximal prefix matching `[^>]*`, with the rest. -/
def takeNonGt : List Char → List Char × List Char
  | [] => ([], [])
  | c :: cs =>
    if c = '>' then ([], c :: cs)
    else
      let r := takeNonGt cs
      (c :: r.1, r.2)

/-- Match `<[^>]+>` at the head of the input (after the `<`), returning the
rest after the closing `>`. -/
def matchTagAfterLt (s : List Char) : Option (List Char) :=
  match takeNonGt s with
  | ([], _) => none
  | (_ :: _, '>' :: rest) => some rest
  | (_ :: _, _) => none

/-- `re.sub(r"<[^>]+>", " ", html)`: each tag is replaced by one space;
fuelled non-overlapping left-to-right scan. -/
def stripTagsAux : Nat → List Char → List Char
  | 0, s => s
  | _ + 1, [] => []
  | fuel + 1, c :: cs =>
    if c = '<' then
      match matchTagAfterLt cs with
      | some rest => ' ' :: stripTagsAux fuel rest
      | none => c :: stripTagsAux fuel cs
    else c :: stripTagsAux fuel cs

/-- Tag-stripped body text used by the Tier-1 text fallback. -/
def stripTags (html : List Char) : List Char :=
  stripTagsAux html.length html

/-- `DownDetectorScraper._do_scrape_curl` from `scraper.py`, after the HTTP
GET: the response is passed in, `Except.error` models a raised
`CurlBlockedError`.  (The debug dumps and the wall-clock timestamp are I/O
and are elided; the `RuntimeError` for a missing session concerns only an
un-started scraper object.) -/
def _do_scrape_curl (service : String) (response : CurlResponse) :
    Except CurlBlockedError ScrapeResult :=
  if response.status_code ≠ 200 then
    .error ⟨response.status_code, "HTTP " ++ toString response.status_code⟩
  else
    let html := response.text
    let html_lower := lowerChars html
    match _CF_CHALLENGE_MARKERS.find? (fun m => isSubstr m.toList html_lower) with
    | some marker =>
      .error ⟨200, "Cloudflare challenge detected: \x27" ++ marker ++ "\x27"⟩
    | none =>
      match _parse_properties_from_html html with
      | some (report_count, page_status) =>
        .ok { service := service, report_count := report_count,
              status := page_status.getD (_classify_status report_count),
              source := "curl" }
      | none =>
        if isSubstr "_next/static".toList html && !isSubstr "window.DD".toList html then
          .error ⟨200, "Next.js client-rendered page, needs Playwright"⟩
        else
          let body_text := stripTags html
          if isSubstr "no current problems".toList (lowerChars body_text) then
            .ok { service := service, report_count := 0, status := "ok", source := "curl" }
          else
            match _parse_report_text body_text with
            | some count =>
              .ok { service := service, report_count := (count : Int),
                    status := _classify_status (count : Int), source := "curl" }
            | none =>
              .ok { service := service, report_count := 0, status := "ok", source := "curl" }

/-! ## scraper.py: `_extract_from_recharts` (chart-geometry decode)

The numeric work happens in the injected JavaScript of
`_extract_from_recharts`.  DOM reads (`querySelector`, tick `textContent`
after `parseFloat(..) || 0`, the `d`-attribute coordinates after the
`[ML](x),(y)` regex) are passed in as data; absent chart, absent path and
empty tick list all collapse to `chart = none` or empty input lists, every
one of which the JavaScript turns into `null`.  JavaScript floats are
modelled by `ℚ`; `Math.round` rounds half toward positive infinity. -/

/-- DOM inputs of the Recharts JavaScript: the parsed Y-axis tick values and
the parsed y-coordinates of the area path. -/
structure RechartsChart where
  yValues : List ℚ
  yCoords : List ℚ
deriving DecidableEq

/-- JavaScript `Math.round`. -/
def jsRound (x : ℚ) : Int :=
  ⌊x + 1 / 2⌋

/-- `Math.max(...)` over a non-empty list (head plus tail fold). -/
def listMaxQ (c : ℚ) (cs : List ℚ) : ℚ :=
  cs.foldl max c

/-- `DownDetectorScraper._extract_from_recharts` from `scraper.py`
(the injected JavaScript plus the surrounding Python). -/
def _extract_from_recharts (chart : Option RechartsChart) : Option (Int × Option String) :=
  match chart with
  | none => none
  | some ch =>
    match ch.yValues with
    | [] => none
    | v :: vs =>
      let yMax := listMaxQ v vs
      if yMax ≤ 0 then none
      else
        match ch.yCoords with
        | [] => none
        | c :: cs =>
          let baseline := listMaxQ c cs
          if baseline ≤ 0 then none
          else
            let lastY := (c :: cs).getLast (by simp)
            let lastReports := jsRound (yMax * (baseline - lastY) / baseline)
            some (lastReports, some (_classify_status lastReports))

/-! ## scraper.py: `_extract_from_page` and `_do_scrape_playwright` (Tier 2) -/

/-- The live page as `_extract_from_page` reads it.  `dd_props = none` covers
a missing/falsy `window.DD.currentServiceProperties` and any evaluation
error (both caught in the source); `chart = none` likewise covers a missing
Recharts wrapper/path and evaluation errors. -/
structure PageDoc where
  dd_props : Option ServiceProps
  html : List Char
  chart : Option RechartsChart
  body_text : List Char

/-- `DownDetectorScraper._extract_from_page` from `scraper.py`: the four
strategies in source order. -/
def _extract_from_page (page : PageDoc) : Int × Option String :=
  match page.dd_props with
  | some props => _parse_service_properties props
  | none =>
    match _parse_properties_from_html page.html with
    | some r => r
    | none =>
      match _extract_from_recharts page.chart with
      | some r => r
      | none =>
        if isSubstr "no current problems".toList (lowerChars page.body_text) then
          (0, some "ok")
        else (0, none)

/-- `DownDetectorScraper._do_scrape_playwright` from `scraper.py`, given the
settled page.  Navigation, the Cloudflare wait/click heuristics, consent and
skip clicks only mutate the live page and are elided; the extraction and the
result construction are embedded. -/
def _do_scrape_playwright (service : String) (page : PageDoc) : ScrapeResult :=
  let r := _extract_from_page page
  { service := service, report_count := r.1,
    status := (r.2).getD (_classify_status r.1), source := "playwright" }

/-! ## scraper.py: `scrape_service` (orchestrator)

The two tiers are presented as oracles indexed by the attempt number:
`tier1 a` is what the Tier-1 fetch of attempt `a` does (a result, a raised
`CurlBlockedError`, or any other raised exception with its `str(exc)`), and
`tier2 a` is what the whole Tier-2 block of attempt `a` does
(`_ensure_playwright` plus `_do_scrape_playwright`; a failure of either is
caught by the same `except`).  The simulation also records which attempts
invoked each tier, so that the claims about fallback discipline are
statable.  The inter-attempt `asyncio.sleep(3 * attempt)` is timing-only
and is elided. -/

/-- Behaviour of the Tier-1 fetch on one attempt. -/
inductive Tier1Outcome where
  | success (result : ScrapeResult)
  | blocked (err : CurlBlockedError)
  | failure (msg : String)
deriving DecidableEq

/-- Behaviour of the Tier-2 block on one attempt. -/
inductive Tier2Outcome where
  | success (result : ScrapeResult)
  | failure (msg : String)
deriving DecidableEq

/-- Did Tier 1 raise `CurlBlockedError`? -/
def Tier1Outcome.isBlocked : Tier1Outcome → Bool
  | .blocked _ => true
  | _ => false

/-- Did Tier 1 return a result? -/
def Tier1Outcome.isSuccess : Tier1Outcome → Bool
  | .success _ => true
  | _ => false

/-- Did Tier 2 return a result? -/
def Tier2Outcome.isSuccess : Tier2Outcome → Bool
  | .success _ => true
  | _ => false

/-- The error result built after the retry loop exhausts
(`status="error"`, `source="error"`, `error=last_error`). -/
def mkErrorResult (service : String) (last_error : Option String) : ScrapeResult :=
  { service := service, report_count := 0, status := "error",
    error := last_error, source := "error" }

/-- Outcome of `scrape_service`: the returned result plus the attempt
numbers on which each tier was invoked. -/
structure ScrapeTrace where
  result : ScrapeResult
  tier1_attempts : List Nat
  tier2_attempts : List Nat
deriving DecidableEq

/-- The retry loop of `scrape_service`: `remaining` attempts left, the next
one numbered `attempt`, carrying `last_error`. -/
def scrapeGo (tier1 : Nat → Tier1Outcome) (tier2 : Nat → Tier2Outcome)
    (service : String) :
    Nat → Nat → Option String → ScrapeTrace
  | 0, _, last_error => ⟨mkErrorResult service last_error, [], []⟩
  | remaining + 1, attempt, last_error =>
    match tier1 attempt with
    | .success r => ⟨r, [attempt], []⟩
    | .blocked _ =>
      match tier2 attempt with
      | .success r => ⟨r, [attempt], [attempt]⟩
      | .failure msg =>
        let t := scrapeGo tier1 tier2 service remaining (attempt + 1)
          (some ("Playwright fallback failed: " ++ msg))
        ⟨t.result, attempt :: t.tier1_attempts, attempt :: t.tier2_attempts⟩
    | .failure msg =>
      let t := scrapeGo tier1 tier2 service remaining (attempt + 1) (some msg)
      ⟨t.result, attempt :: t.tier1_attempts, t.tier2_attempts⟩

/-- `DownDetectorScraper.scrape_service` from `scraper.py`: attempts
`1..retries` (`range(1, retries + 1)`), starting with `last_error = None`. -/
def scrape_service (service : String) (tier1 : Nat → Tier1Outcome)
    (tier2 : Nat → Tier2Outcome) (retries : Nat) : ScrapeTrace :=
  scrapeGo tier1 tier2 service retries 1 none

/-! ## history.py: cooldown logic

`AlertRecord.timestamp` is an ISO-8601 string in the source;
`datetime.fromisoformat` either yields an instant or raises `ValueError`
(caught with `continue`).  The embedding carries the parse result directly:
`timestamp = some t` is a parseable stamp denoting `t` seconds on the UTC
timeline (naive stamps are re-tagged UTC by the source, which the single
timeline already captures), `none` is an unparseable one.
`(now - sent_at).total_seconds()` becomes integer subtraction. -/

/-- `AlertRecord` from `history.py` (timestamp pre-parsed, see above). -/
structure AlertRecord where
  service : String
  report_count : Int
  timestamp : Option Int
  recipients : List String
deriving Repr, DecidableEq

/-- The `for record in reversed(self._records)` loop body of
`AlertHistory.is_in_cooldown`: skip other services, skip unparseable
timestamps, return `True` on `elapsed < cooldown_seconds`, else keep
scanning. -/
def cooldownScan (now : Int) (service : String) (cooldown_seconds : Int) :
    List AlertRecord → Bool
  | [] => false
  | r :: rest =>
    if lowerStr r.service ≠ lowerStr service then
      cooldownScan now service cooldown_seconds rest
    else
      match r.timestamp with
      | none => cooldownScan now service cooldown_seconds rest
      | some sent_at =>
        if now - sent_at < cooldown_seconds then true
        else cooldownScan now service cooldown_seconds rest

/-- `AlertHistory.is_in_cooldown` from `history.py`; `now` is the value of
`datetime.now(timezone.utc)` on the same timeline as the records. -/
def is_in_cooldown (records : List AlertRecord) (now : Int) (service : String)
    (cooldown_seconds : Int) : Bool :=
  cooldownScan now service cooldown_seconds records.reverse

/-- `AlertHistory.record_alert` from `history.py`: appends a record stamped
with the current instant (always parseable) and persists.  Persistence is
I/O and is elided; the in-memory list is returned. -/
def record_alert (records : List AlertRecord) (service : String)
    (report_count : Int) (recipients : List String) (now : Int) : List AlertRecord :=
  records ++ [⟨service, report_count, some now, recipients⟩]

/-! ## history.py: `_load` and the corrupt-file quarantine

`json.loads` is the standard library; its output (or its
`JSONDecodeError`) is carried alongside the raw bytes of the file, and the
code after it — the `for r in data` iteration and `AlertRecord.from_dict` —
is embedded faithfully over that JSON value, including which exception each
malformed shape raises and which of them `_load`'s
`except (json.JSONDecodeError, KeyError)` actually catches. -/

/-- A JSON value (`json.loads` output). -/
inductive Json where
  | null
  | bool (b : Bool)
  | num (n : Int)
  | str (s : String)
  | arr (xs : List Json)
  | obj (fields : List (String × Json))

/-- The Python exceptions relevant to `_load`. -/
inductive PyError where
  | jsonDecodeError
  | keyError (key : String)
  | typeError
deriving DecidableEq

/-- Dictionary lookup `data[k]` on a JSON object. -/
def lookupField (fields : List (String × Json)) (k : String) : Option Json :=
  (fields.find? (fun p => p.1 = k)).map (fun p => p.2)

/-- A loaded record as Python stores it: `from_dict` copies the raw values
without validating their types. -/
structure RawAlertRecord where
  service : Json
  report_count : Json
  timestamp : Json
  recipients : Json

/-- `AlertRecord.from_dict` from `history.py`: subscripting a non-dict is a
`TypeError`; a missing key in a dict is a `KeyError` (in source evaluation
order `service`, `report_count`, `timestamp`); `recipients` defaults via
`.get(..., [])`. -/
def from_dict (data : Json) : Except PyError RawAlertRecord :=
  match data with
  | .obj fields =>
    match lookupField fields "service" with
    | none => .error (.keyError "service")
    | some sv =>
      match lookupField fields "report_count" with
      | none => .error (.keyError "report_count")
      | some rc =>
        match lookupField fields "timestamp" with
        | none => .error (.keyError "timestamp")
        | some ts =>
          .ok ⟨sv, rc, ts, (lookupField fields "recipients").getD (.arr [])⟩
  | _ => .error .typeError

/-- Python iteration `for r in data` over a JSON value: lists yield their
elements, strings their characters, dicts their keys; numbers, booleans and
`None` raise `TypeError`. -/
def pyIterate : Json → Except PyError (List Json)
  | .arr xs => .ok xs
  | .str s => .ok (s.toList.map (fun c => .str (String.mk [c])))
  | .obj fields => .ok (fields.map (fun p => .str p.1))
  | _ => .error .typeError

/-- `[AlertRecord.from_dict(r) for r in data]`: the first exception wins. -/
def parseRecords (data : Json) : Except PyError (List RawAlertRecord) := do
  let items ← pyIterate data
  items.mapM from_dict

/-- The history file's content: its raw bytes together with what
`json.loads` does on them (`none` = `JSONDecodeError`). -/
structure RawContent where
  bytes : String
  parsed : Option Json

/-- The slice of the filesystem `_load` touches: the history file and its
`.json.bak` quarantine sibling (`self._file.with_suffix(".json.bak")`). -/
structure HistoryFS where
  main : Option RawContent
  bak : Option RawContent

/-- `AlertHistory._load` from `history.py`.  `Except.error` models an
exception escaping the constructor; on the caught errors the file is
renamed aside (`os.replace`, contents preserved byte for byte) and the
store starts empty.  (The source additionally swallows an `OSError` of the
rename itself; the rename here always succeeds.) -/
def historyLoad (fs : HistoryFS) : Except PyError (HistoryFS × List RawAlertRecord) :=
  match fs.main with
  | none => .ok (fs, [])
  | some content =>
    match content.parsed with
    | none => .ok (⟨none, some content⟩, [])
    | some data =>
      match parseRecords data with
      | .ok records => .ok (fs, records)
      | .error (.keyError _) => .ok (⟨none, some content⟩, [])
      | .error e => .error e

/-! ## main.py: `run_loop` backoff -/

/-- What one iteration of the `while` loop in `run_loop` observed:
the poll was skipped (outside active hours), `poll_once` returned `True`,
returned `False`, or raised. -/
inductive CycleOutcome where
  | skipped
  | success
  | allFail
  | exception
deriving DecidableEq

/-- `max_backoff = 3600  # 1 hour cap` from `run_loop`. -/
def max_backoff : Nat := 3600

/-- One iteration of `run_loop`'s `while` body, reduced to its scheduling
state: from the current `consecutive_all_fail` counter and the cycle's
outcome, the new counter and the `wait_time` passed to the shutdown-racing
wait.  (Heartbeat touch and logging are I/O and are elided.) -/
def run_loop_step (poll_interval : Nat) (consecutive_all_fail : Nat)
    (outcome : CycleOutcome) : Nat × Nat :=
  match outcome with
  | .skipped => (consecutive_all_fail, poll_interval)
  | .success => (0, poll_interval)
  | .allFail =>
    (consecutive_all_fail + 1,
     min (poll_interval * 2 ^ (consecutive_all_fail + 1)) max_backoff)
  | .exception =>
    (consecutive_all_fail + 1,
     min (poll_interval * 2 ^ (consecutive_all_fail + 1)) max_backoff)

/-- The loop run over a finite schedule of cycle outcomes, returning the
wait time it slept after each cycle.  Every outcome — including `exception`
— produces a wait and a next cycle: no scraping error exits the loop. -/
def run_loop_sim (poll_interval : Nat) : Nat → List CycleOutcome → List Nat
  | _, [] => []
  | counter, o :: os =>
    let s := run_loop_step poll_interval counter o
    s.2 :: run_loop_sim poll_interval s.1 os

/-- An embedded-object document whose series carries the out-of-order
magnitude sequence 12, 5, 8 (the spec's test vector: the temporally last
value 8 is not the maximum 12). -/
def sampleHtml : List Char :=
  ("window.DD.currentServiceProperties = \x7b status: \x27warning\x27, series: \x7b reports: \x7b data: [ \x7b x: \x27t1\x27, y: 12 \x7d, \x7b x: \x27t2\x27, y: 5 \x7d, \x7b x: \x27t3\x27, y: 8 \x7d ] \x7d \x7d \x7d").toList

/-! # Theorems -/

/-! ## Helper lemmas -/

/-- `status_map` hits one of exactly four values. -/
theorem status_map_cases (token : String) :
    status_map token = none ∨ status_map token = some "ok"
    ∨ status_map token = some "warning" ∨ status_map token = some "danger" := by
  unfold status_map
  split_ifs <;> simp

/-- The severity classifier never returns the empty string. -/
theorem classify_ne_empty (count : Int) : _classify_status count ≠ "" := by
  unfold _classify_status
  split_ifs <;> decide

/-! ## Claim C9 -/

/-- Claim C9: for every integer count, `_classify_status` returns exactly
"ok" on 0–9, "warning" on 10–49 and "danger" on 50 and above; the boundary
inputs 9, 10, 49, 50 classify as ok, warning, warning and danger. -/
theorem classify_status_ranges :
    (∀ count : Int, 0 ≤ count → count ≤ 9 → _classify_status count = "ok")
    ∧ (∀ count : Int, 10 ≤ count → count ≤ 49 → _classify_status count = "warning")
    ∧ (∀ count : Int, 50 ≤ count → _classify_status count = "danger")
    ∧ _classify_status 9 = "ok" ∧ _classify_status 10 = "warning"
    ∧ _classify_status 49 = "warning" ∧ _classify_status 50 = "danger" := by
  refine ⟨?_, ?_, ?_, by decide, by decide, by decide, by decide⟩
  · intro count h1 h2
    unfold _classify_status
    rw [if_pos (by omega)]
  · intro count h1 h2
    unfold _classify_status
    rw [if_neg (by omega), if_pos (by omega)]
  · intro count h1
    unfold _classify_status
    rw [if_neg (by omega), if_neg (by omega)]

/-- Witness for C9: the classifier applied inside each range. -/
theorem classify_status_ranges_witness :
    _classify_status 3 = "ok" ∧ _classify_status 20 = "warning"
    ∧ _classify_status 100 = "danger" :=
  ⟨classify_status_ranges.1 3 (by decide) (by decide),
   classify_status_ranges.2.1 20 (by decide) (by decide),
   classify_status_ranges.2.2.1 100 (by decide)⟩

/-! ## Claim C4 -/

/-- Claim C4: the status mapping of the embedded-object extractors is total
and never throws: success/warning/danger map to ok/warning/danger, every
other token maps to the unknown status (Python `None`, embedded as `none`)
rather than raising, and both extractors route their token through exactly
this table. -/
theorem status_mapping_total :
    status_map "success" = some "ok"
    ∧ status_map "warning" = some "warning"
    ∧ status_map "danger" = some "danger"
    ∧ (∀ token : String, token ≠ "success" → token ≠ "warning" → token ≠ "danger" →
        status_map token = none)
    ∧ (∀ props, (_parse_service_properties props).2 = status_map (props.status.getD ""))
    ∧ (∀ html count page_status,
        _parse_properties_from_html html = some (count, page_status) →
        page_status = none ∨ page_status = some "ok"
        ∨ page_status = some "warning" ∨ page_status = some "danger") := by
  refine ⟨by decide, by decide, by decide, ?_, fun props => rfl, ?_⟩
  · intro token h1 h2 h3
    unfold status_map
    rw [if_neg h1, if_neg h2, if_neg h3]
  · intro html count page_status h
    cases hs : searchStatus html with
    | none =>
      cases hy : (findYValues html).getLast? with
      | none => simp [_parse_properties_from_html, hs, hy] at h
      | some y =>
        simp only [_parse_properties_from_html, hs, hy, Option.some.injEq,
          Prod.mk.injEq] at h
        exact Or.inl h.2.symm
    | some tok =>
      cases hy : (findYValues html).getLast? with
      | none =>
        simp only [_parse_properties_from_html, hs, hy] at h
        by_cases hok : status_map (String.mk tok) = some "ok"
        · rw [if_pos hok] at h
          simp only [Option.some.injEq, Prod.mk.injEq] at h
          rw [← h.2]
          exact (status_map_cases (String.mk tok)).imp id (Or.imp id (Or.imp id id))
        · rw [if_neg hok] at h
          cases h
      | some y =>
        simp only [_parse_properties_from_html, hs, hy, Option.some.injEq,
          Prod.mk.injEq] at h
        rw [← h.2]
        exact (status_map_cases (String.mk tok)).imp id (Or.imp id (Or.imp id id))

/-- Witness for C4: an unrecognized token maps to unknown, also through the
live extractor. -/
theorem status_mapping_total_witness :
    status_map "bogus" = none
    ∧ (_parse_service_properties ⟨some "bogus", some [⟨"t", some 3⟩]⟩).2 = none :=
  ⟨status_mapping_total.2.2.2.1 "bogus" (by decide) (by decide) (by decide),
   (status_mapping_total.2.2.2.2.1 ⟨some "bogus", some [⟨"t", some 3⟩]⟩).trans
     (status_mapping_total.2.2.2.1 "bogus" (by decide) (by decide) (by decide))⟩

/-! ## Claim C7 -/

/-- Claim C7: in `run_loop`, an all-fail cycle and a cycle that raises both
increment the consecutive-failure counter and set the next wait to
`min(poll_interval * 2 ^ counter, 3600)`; a cycle with a success resets the
counter to zero and restores the wait to `poll_interval`; and the loop
continues past every cycle outcome (a scraping error never terminates it). -/
theorem run_loop_backoff_policy (poll_interval counter : Nat) :
    run_loop_step poll_interval counter CycleOutcome.allFail
      = (counter + 1, min (poll_interval * 2 ^ (counter + 1)) 3600)
    ∧ run_loop_step poll_interval counter CycleOutcome.exception
      = (counter + 1, min (poll_interval * 2 ^ (counter + 1)) 3600)
    ∧ run_loop_step poll_interval counter CycleOutcome.success = (0, poll_interval)
    ∧ ∀ (start : Nat) (outcomes : List CycleOutcome),
        (run_loop_sim poll_interval start outcomes).length = outcomes.length := by
  refine ⟨rfl, rfl, rfl, ?_⟩
  intro start outcomes
  induction outcomes generalizing start with
  | nil => rfl
  | cons o os ih => simpa [run_loop_sim] using ih _

/-! ## Claim C10 -/

/-- Claim C10: `scrape_service` called with retries below 1 performs no
Tier-1 or Tier-2 fetch and immediately returns status "error", source
"error", report count 0 and an error field of `None`. -/
theorem scrape_service_zero_retries (service : String)
    (tier1 : Nat → Tier1Outcome) (tier2 : Nat → Tier2Outcome) :
    scrape_service service tier1 tier2 0
      = ⟨{ service := service, report_count := 0, status := "error",
           error := none, source := "error" }, [], []⟩ := rfl

/-! ## Claim C1 -/

/-- Claim C1: both embedded-object extractors return the `y` value of the
temporally last element of the data series, never the maximum: the live
extractor returns the last data point's `y`, the static extractor returns
the last capture of its order-preserving scan; on the out-of-order sequence
12, 5, 8 the extracted report count is 8 (and not the maximum 12). -/
theorem extract_returns_last_y :
    (∀ props data_points p y, props.data = some data_points →
        data_points.getLast? = some p → p.y = some y →
        (_parse_service_properties props).1 = y)
    ∧ (∀ html y, (findYValues html).getLast? = some y →
        ∃ page_status, _parse_properties_from_html html = some ((y : Int), page_status))
    ∧ findYValues sampleHtml = [12, 5, 8]
    ∧ _parse_properties_from_html sampleHtml = some (8, some "warning")
    ∧ (8 : Int) ≠ 12 := by
  refine ⟨?_, ?_, by decide, by decide, by decide⟩
  · intro props data_points p y h1 h2 h3
    simp [_parse_service_properties, h1, h2, h3]
  · intro html y h
    cases hs : searchStatus html with
    | none => exact ⟨none, by simp only [_parse_properties_from_html, hs, h]⟩
    | some tok =>
      exact ⟨status_map (String.mk tok), by simp only [_parse_properties_from_html, hs, h]⟩

/-- Witness for C1: the live extractor applied to the 12, 5, 8 series. -/
theorem extract_returns_last_y_witness :
    (_parse_service_properties
        ⟨some "warning", some [⟨"t1", some 12⟩, ⟨"t2", some 5⟩, ⟨"t3", some 8⟩]⟩).1 = 8 :=
  extract_returns_last_y.1 _ _ _ _ rfl rfl rfl

/-! ## Claim C3 -/

/-- The scan returns `false` when every matching record with a parseable
timestamp is at least `cooldown_seconds` old. -/
theorem cooldownScan_false (now : Int) (service : String) (cooldown_seconds : Int) :
    ∀ records : List AlertRecord,
      (∀ r ∈ records, lowerStr r.service = lowerStr service →
        ∀ t, r.timestamp = some t → cooldown_seconds ≤ now - t) →
      cooldownScan now service cooldown_seconds records = false := by
  intro records
  induction records with
  | nil => intro _; rfl
  | cons r rest ih =>
    intro hall
    unfold cooldownScan
    by_cases hs : lowerStr r.service ≠ lowerStr service
    · rw [if_pos hs]
      exact ih fun q hq => hall q (List.mem_cons_of_mem r hq)
    · rw [if_neg hs]
      rw [not_not] at hs
      cases ht : r.timestamp with
      | none => exact ih fun q hq => hall q (List.mem_cons_of_mem r hq)
      | some sent_at =>
        show (if now - sent_at < cooldown_seconds then true
          else cooldownScan now service cooldown_seconds rest) = false
        rw [if_neg (not_lt.mpr (hall r (List.mem_cons_self r rest) hs sent_at ht))]
        exact ih fun q hq => hall q (List.mem_cons_of_mem r hq)

/-- Counterexample to C3 as stated: with records whose timestamps are out of
append order, the newest-first scan's first service-matching record with a
parseable timestamp (the one stamped 0) is 100 ≥ 50 seconds old, yet
`is_in_cooldown` still returns `true`, because the source keeps scanning
older positions and finds the fresher stamp 95. -/
theorem cooldown_newest_first_counterexample :
    List.find?
        (fun r => (lowerStr r.service == lowerStr "mtn") && r.timestamp.isSome)
        ([⟨"mtn", 5, some 95, []⟩, ⟨"mtn", 20, some 0, []⟩] : List AlertRecord).reverse
      = some ⟨"mtn", 20, some 0, []⟩
    ∧ (50 : Int) ≤ 100 - 0
    ∧ is_in_cooldown [⟨"mtn", 5, some 95, []⟩, ⟨"mtn", 20, some 0, []⟩] 100 "mtn" 50
      = true := by
  decide

/-- Claim C3 as amended: after an alert for `s` is recorded at time `T`,
`is_in_cooldown s c` is `true` at every query time in `[T, T + c)`; it is
`false` once every record matching `s` (case-insensitively) with a
parseable timestamp is at least `c` seconds old (the code consults all
matching records, not only the newest-first one); and recording an alert
for `s` never changes the answer for a service differing from `s` under
case-insensitive comparison. -/
theorem is_in_cooldown_amended :
    (∀ (records : List AlertRecord) (s : String) (cnt : Int) (rcp : List String)
        (T now c : Int), T ≤ now → now - T < c →
        is_in_cooldown (record_alert records s cnt rcp T) now s c = true)
    ∧ (∀ (records : List AlertRecord) (s : String) (now c : Int),
        (∀ r ∈ records, lowerStr r.service = lowerStr s →
          ∀ t, r.timestamp = some t → c ≤ now - t) →
        is_in_cooldown records now s c = false)
    ∧ (∀ (records : List AlertRecord) (s : String) (cnt : Int) (rcp : List String)
        (T now c : Int) (other : String), lowerStr s ≠ lowerStr other →
        is_in_cooldown (record_alert records s cnt rcp T) now other c
          = is_in_cooldown records now other c) := by
  refine ⟨?_, ?_, ?_⟩
  · intro records s cnt rcp T now c hT hc
    unfold is_in_cooldown record_alert
    rw [List.reverse_append]
    show cooldownScan now s c (⟨s, cnt, some T, rcp⟩ :: records.reverse) = true
    unfold cooldownScan
    rw [if_neg (by simp)]
    show (if now - T < c then true else cooldownScan now s c records.reverse) = true
    rw [if_pos hc]
  · intro records s now c hall
    unfold is_in_cooldown
    exact cooldownScan_false now s c records.reverse
      fun r hr => hall r (List.mem_reverse.mp hr)
  · intro records s cnt rcp T now c other hne
    unfold is_in_cooldown record_alert
    rw [List.reverse_append]
    show cooldownScan now other c (⟨s, cnt, some T, rcp⟩ :: records.reverse)
      = cooldownScan now other c records.reverse
    have step : cooldownScan now other c (⟨s, cnt, some T, rcp⟩ :: records.reverse)
        = if lowerStr s ≠ lowerStr other then cooldownScan now other c records.reverse
          else if now - T < c then true
          else cooldownScan now other c records.reverse := rfl
    rw [step, if_pos hne]

/-- Witness for C3 (amended): a fresh alert suppresses its own service, an
old record does not, and recording one service leaves another untouched. -/
theorem is_in_cooldown_amended_witness :
    is_in_cooldown (record_alert [] "mtn" 20 ["r1"] 1000) 1500 "mtn" 1800 = true
    ∧ is_in_cooldown [⟨"mtn", 20, some 0, []⟩] 5000 "mtn" 1800 = false
    ∧ is_in_cooldown (record_alert [] "mtn" 20 ["r1"] 1000) 1500 "vodacom" 1800
      = is_in_cooldown [] 1500 "vodacom" 1800 :=
  ⟨is_in_cooldown_amended.1 [] "mtn" 20 ["r1"] 1000 1500 1800 (by decide) (by decide),
   is_in_cooldown_amended.2.1 [⟨"mtn", 20, some 0, []⟩] "mtn" 5000 1800
     (by
       intro r hr hserv t ht
       rw [List.mem_singleton] at hr
       subst hr
       simp only [Option.some.injEq] at ht
       subst ht
       decide),
   is_in_cooldown_amended.2.2 [] "mtn" 20 ["r1"] 1000 1500 1800 "vodacom" (by decide)⟩

/-! ## Claim C6 -/

/-- Claim C6, evaluated at the failing input: a history file whose bytes are
`123` is valid JSON but not a record list; iterating the integer raises
`TypeError`, which `_load`'s `except (json.JSONDecodeError, KeyError)` does
not catch, so constructing the store raises — against the claim.  The two
corruption shapes the source does anticipate behave as the claim says: an
undecodable file and a record missing a required key are quarantined with
their bytes intact and the store starts empty. -/
theorem history_load_corrupt_file :
    historyLoad ⟨some ⟨"123", some (Json.num 123)⟩, none⟩
      = Except.error PyError.typeError
    ∧ historyLoad ⟨some ⟨"not valid json \x7b\x7b\x7b", none⟩, none⟩
      = Except.ok (⟨none, some ⟨"not valid json \x7b\x7b\x7b", none⟩⟩, [])
    ∧ historyLoad ⟨some ⟨"[\x7b\x7d]", some (Json.arr [Json.obj []])⟩, none⟩
      = Except.ok (⟨none, some ⟨"[\x7b\x7d]", some (Json.arr [Json.obj []])⟩⟩, []) :=
  ⟨rfl, rfl, rfl⟩

/-! ## Claim C5 -/

/-- Claim C5: the Tier-1 fetch raises the typed blocked signal exactly when
the HTTP status is not 200, or a challenge marker is a case-insensitive
substring of the body, or the body carries the JS-bundle-loader marker
(`_next/static`) with no embedded data object (no extractable
`currentServiceProperties` and no `window.DD` occurrence); in the last case
it raises — falling through to Tier 2 — instead of returning a zero-count
result. -/
theorem curl_blocked_iff (service : String) (response : CurlResponse) :
    (∃ e, _do_scrape_curl service response = Except.error e) ↔
      (response.status_code ≠ 200
       ∨ (∃ marker ∈ _CF_CHALLENGE_MARKERS,
            isSubstr marker.toList (lowerChars response.text) = true)
       ∨ (_parse_properties_from_html response.text = none
          ∧ isSubstr "_next/static".toList response.text = true
          ∧ isSubstr "window.DD".toList response.text = false)) := by
  by_cases h200 : response.status_code ≠ 200
  · simp only [_do_scrape_curl, if_pos h200]
    exact ⟨fun _ => Or.inl h200, fun _ => ⟨_, rfl⟩⟩
  · simp only [_do_scrape_curl, if_neg h200]
    cases hfind : _CF_CHALLENGE_MARKERS.find?
        (fun m => isSubstr m.toList (lowerChars response.text)) with
    | some marker =>
      simp only [hfind]
      refine ⟨fun _ => Or.inr (Or.inl ⟨marker, ?_, ?_⟩), fun _ => ⟨_, rfl⟩⟩
      · exact List.mem_of_find?_eq_some hfind
      · have hp := List.find?_some hfind
        exact hp
    | none =>
      have hnomark : ∀ marker ∈ _CF_CHALLENGE_MARKERS,
          ¬ isSubstr marker.toList (lowerChars response.text) = true := by
        intro marker hm
        exact List.find?_eq_none.mp hfind marker hm
      simp only [hfind]
      cases hparse : _parse_properties_from_html response.text with
      | some r =>
        simp only [hparse]
        constructor
        · rintro ⟨e, he⟩
          cases he
        · rintro (h | ⟨marker, hm, hp⟩ | ⟨hnone, _, _⟩)
          · exact absurd h h200
          · exact absurd hp (hnomark marker hm)
          · cases hnone
      | none =>
        simp only [hparse]
        by_cases hnext : isSubstr "_next/static".toList response.text
            && !isSubstr "window.DD".toList response.text
        · rw [if_pos hnext]
          rcases (Bool.and_eq_true _ _).mp hnext with ⟨hn, hdd⟩
          refine ⟨fun _ => Or.inr (Or.inr ⟨by trivial, hn, ?_⟩), fun _ => ⟨_, rfl⟩⟩
          cases hw : isSubstr "window.DD".toList response.text
          · rfl
          · rw [hw] at hdd
            cases hdd
        · rw [if_neg hnext]
          constructor
          · intro hex
            exfalso
            rcases hex with ⟨e, he⟩
            by_cases hnp : isSubstr "no current problems".toList
                (lowerChars (stripTags response.text))
            · rw [if_pos hnp] at he
              cases he
            · rw [if_neg hnp] at he
              cases hrt : _parse_report_text (stripTags response.text) with
              | some count =>
                rw [hrt] at he
                cases he
              | none =>
                rw [hrt] at he
                cases he
          · rintro (h | ⟨marker, hm, hp⟩ | ⟨_, hn, hdd⟩)
            · exact absurd h h200
            · exact absurd hp (hnomark marker hm)
            · exfalso
              rw [Bool.and_eq_true] at hnext
              push_neg at hnext
              have h2 := hnext hn
              rw [hdd] at h2
              exact h2 rfl

/-! ## Claim C2 -/

/-- The attempts that entered the Tier-2 block are exactly the attempts
whose Tier-1 fetch raised the blocked signal. -/
theorem scrapeGo_tier2_filter (tier1 : Nat → Tier1Outcome)
    (tier2 : Nat → Tier2Outcome) (service : String) :
    ∀ (remaining attempt : Nat) (last_error : Option String),
      (scrapeGo tier1 tier2 service remaining attempt last_error).tier2_attempts
        = (scrapeGo tier1 tier2 service remaining attempt last_error).tier1_attempts.filter
            (fun a => (tier1 a).isBlocked) := by
  intro remaining
  induction remaining with
  | zero => intro _ _; rfl
  | succ n ih =>
    intro attempt last_error
    unfold scrapeGo
    cases h1 : tier1 attempt with
    | success r => simp [h1, Tier1Outcome.isBlocked]
    | blocked e =>
      cases h2 : tier2 attempt with
      | success r => simp [h1, h2, Tier1Outcome.isBlocked]
      | failure msg => simp [h1, h2, Tier1Outcome.isBlocked, ih]
    | failure msg => simp [h1, Tier1Outcome.isBlocked, ih]

/-- Every recorded attempt number is at least the starting attempt. -/
theorem scrapeGo_tier1_ge (tier1 : Nat → Tier1Outcome)
    (tier2 : Nat → Tier2Outcome) (service : String) :
    ∀ (remaining attempt : Nat) (last_error : Option String) (a : Nat),
      a ∈ (scrapeGo tier1 tier2 service remaining attempt last_error).tier1_attempts →
      attempt ≤ a := by
  intro remaining
  induction remaining with
  | zero => intro _ _ a ha; cases ha
  | succ n ih =>
    intro attempt last_error a ha
    unfold scrapeGo at ha
    cases h1 : tier1 attempt with
    | success r =>
      rw [h1] at ha
      rw [List.mem_singleton.mp ha]
    | blocked e =>
      rw [h1] at ha
      cases h2 : tier2 attempt with
      | success r =>
        rw [h2] at ha
        rw [List.mem_singleton.mp ha]
      | failure msg =>
        rw [h2] at ha
        rcases List.mem_cons.mp ha with rfl | htail
        · exact le_refl a
        · exact le_of_lt (Nat.lt_of_lt_of_le (Nat.lt_succ_self attempt) (ih _ _ _ htail))
    | failure msg =>
      rw [h1] at ha
      rcases List.mem_cons.mp ha with rfl | htail
      · exact le_refl a
      · exact le_of_lt (Nat.lt_of_lt_of_le (Nat.lt_succ_self attempt) (ih _ _ _ htail))

/-- No attempt number is recorded twice. -/
theorem scrapeGo_tier1_nodup (tier1 : Nat → Tier1Outcome)
    (tier2 : Nat → Tier2Outcome) (service : String) :
    ∀ (remaining attempt : Nat) (last_error : Option String),
      (scrapeGo tier1 tier2 service remaining attempt last_error).tier1_attempts.Nodup := by
  intro remaining
  induction remaining with
  | zero => intro _ _; exact List.nodup_nil
  | succ n ih =>
    intro attempt last_error
    unfold scrapeGo
    cases h1 : tier1 attempt with
    | success r => exact List.nodup_singleton attempt
    | blocked e =>
      cases h2 : tier2 attempt with
      | success r => exact List.nodup_singleton attempt
      | failure msg =>
        refine List.nodup_cons.mpr ⟨fun hmem => ?_, ih _ _⟩
        have := scrapeGo_tier1_ge tier1 tier2 service n (attempt + 1) _ attempt hmem
        omega
    | failure msg =>
      refine List.nodup_cons.mpr ⟨fun hmem => ?_, ih _ _⟩
      have := scrapeGo_tier1_ge tier1 tier2 service n (attempt + 1) _ attempt hmem
      omega

/-- The combined Tier-2 diagnostic is never the empty string. -/
theorem pw_diagnostic_ne_empty (msg : String) :
    "Playwright fallback failed: " ++ msg ≠ "" := by
  intro h
  have hlen := congrArg String.length h
  rw [String.length_append] at hlen
  have h28 : ("Playwright fallback failed: " : String).length = 28 := rfl
  have h0 : ("" : String).length = 0 := rfl
  omega

/-- If every attempt in the window fails (Tier 1 never succeeds, and Tier 2
fails whenever it is triggered) and raised Tier-1 exceptions carry non-empty
messages, the loop falls through to the error result with a non-empty
diagnostic. -/
theorem scrapeGo_all_fail (tier1 : Nat → Tier1Outcome)
    (tier2 : Nat → Tier2Outcome) (service : String) :
    ∀ (remaining attempt : Nat) (last_error : Option String),
      1 ≤ remaining →
      (∀ a, attempt ≤ a → a < attempt + remaining →
        (tier1 a).isSuccess = false
        ∧ ((tier1 a).isBlocked = true → (tier2 a).isSuccess = false)) →
      (∀ a msg, tier1 a = Tier1Outcome.failure msg → msg ≠ "") →
      ∃ m, (scrapeGo tier1 tier2 service remaining attempt last_error).result
          = mkErrorResult service (some m) ∧ m ≠ "" := by
  intro remaining
  induction remaining with
  | zero => intro _ _ h; omega
  | succ n ih =>
    intro attempt last_error _ hfail hmsg
    have hthis := hfail attempt (le_refl attempt) (by omega)
    unfold scrapeGo
    cases h1 : tier1 attempt with
    | success r =>
      rw [h1] at hthis
      cases hthis.1
    | blocked e =>
      cases h2 : tier2 attempt with
      | success r =>
        rw [h1] at hthis
        have := hthis.2 rfl
        rw [h2] at this
        cases this
      | failure msg =>
        cases n with
        | zero =>
          exact ⟨"Playwright fallback failed: " ++ msg, rfl, pw_diagnostic_ne_empty msg⟩
        | succ k =>
          have step := ih (attempt + 1)
            (some ("Playwright fallback failed: " ++ msg)) (by omega)
            (fun a ha1 ha2 => hfail a (by omega) (by omega)) hmsg
          rcases step with ⟨m, hm, hne⟩
          exact ⟨m, by simpa using hm, hne⟩
    | failure msg =>
      cases n with
      | zero => exact ⟨msg, rfl, hmsg attempt msg h1⟩
      | succ k =>
        have step := ih (attempt + 1) (some msg) (by omega)
          (fun a ha1 ha2 => hfail a (by omega) (by omega)) hmsg
        rcases step with ⟨m, hm, hne⟩
        exact ⟨m, by simpa using hm, hne⟩

/-- Claim C2: per attempt, a blocked signal from Tier 1 triggers exactly one
Tier-2 attempt (the Tier-2 block, which lazily starts Playwright), any
other Tier-1 exception never invokes Tier 2 for that attempt, and when all
attempts are exhausted without success the returned result has status
"error", source "error" and a non-empty diagnostic message (granted that
raised Tier-1 exceptions stringify non-empty, as `CurlBlockedError` and the
library errors do). -/
theorem scrape_service_fallback_policy (service : String)
    (tier1 : Nat → Tier1Outcome) (tier2 : Nat → Tier2Outcome) (retries : Nat) :
    (scrape_service service tier1 tier2 retries).tier2_attempts
      = (scrape_service service tier1 tier2 retries).tier1_attempts.filter
          (fun a => (tier1 a).isBlocked)
    ∧ (scrape_service service tier1 tier2 retries).tier1_attempts.Nodup
    ∧ (1 ≤ retries →
        (∀ a, 1 ≤ a → a ≤ retries →
          (tier1 a).isSuccess = false
          ∧ ((tier1 a).isBlocked = true → (tier2 a).isSuccess = false)) →
        (∀ a msg, tier1 a = Tier1Outcome.failure msg → msg ≠ "") →
        (scrape_service service tier1 tier2 retries).result.status = "error"
        ∧ (scrape_service service tier1 tier2 retries).result.source = "error"
        ∧ ∃ m, (scrape_service service tier1 tier2 retries).result.error = some m
            ∧ m ≠ "") := by
  refine ⟨scrapeGo_tier2_filter tier1 tier2 service retries 1 none,
    scrapeGo_tier1_nodup tier1 tier2 service retries 1 none, ?_⟩
  intro hret hfail hmsg
  have := scrapeGo_all_fail tier1 tier2 service retries 1 none hret
    (fun a ha1 ha2 => hfail a ha1 (by omega)) hmsg
  rcases this with ⟨m, hm, hne⟩
  unfold scrape_service
  rw [hm]
  exact ⟨rfl, rfl, m, rfl, hne⟩

/-- Witness for C2: every attempt blocked, the Tier-2 fallback failing each
time, two attempts. -/
theorem scrape_service_fallback_policy_witness :
    (scrape_service "mtn" (fun _ => Tier1Outcome.blocked ⟨403, "Forbidden"⟩)
        (fun _ => Tier2Outcome.failure "pw down") 2).result.status = "error"
    ∧ (scrape_service "mtn" (fun _ => Tier1Outcome.blocked ⟨403, "Forbidden"⟩)
        (fun _ => Tier2Outcome.failure "pw down") 2).result.source = "error"
    ∧ ∃ m, (scrape_service "mtn" (fun _ => Tier1Outcome.blocked ⟨403, "Forbidden"⟩)
        (fun _ => Tier2Outcome.failure "pw down") 2).result.error = some m ∧ m ≠ "" :=
  (scrape_service_fallback_policy "mtn"
      (fun _ => Tier1Outcome.blocked ⟨403, "Forbidden"⟩)
      (fun _ => Tier2Outcome.failure "pw down") 2).2.2
    (by decide)
    (fun a _ _ => ⟨rfl, fun _ => rfl⟩)
    (fun a msg h => Tier1Outcome.noConfusion h)

/-! ## Claim C8 -/

/-- A status taken from the mapping table, with the classifier as fallback,
is never the empty string. -/
theorem status_map_getD_ne_empty (token : String) (count : Int) :
    (status_map token).getD (_classify_status count) ≠ "" := by
  rcases status_map_cases token with h | h | h | h <;> rw [h]
  · exact classify_ne_empty count
  all_goals
    simp only [Option.getD_some]
    decide

/-- The static extractor yields a non-negative count and, with the
classifier as fallback, a non-empty status. -/
theorem parse_properties_from_html_bounds (html : List Char) (count : Int)
    (page_status : Option String) :
    _parse_properties_from_html html = some (count, page_status) →
    0 ≤ count ∧ page_status.getD (_classify_status count) ≠ "" := by
  intro h
  cases hs : searchStatus html with
  | none =>
    cases hy : (findYValues html).getLast? with
    | none => simp [_parse_properties_from_html, hs, hy] at h
    | some y =>
      simp only [_parse_properties_from_html, hs, hy, Option.some.injEq,
        Prod.mk.injEq] at h
      rw [← h.1, ← h.2]
      exact ⟨Int.natCast_nonneg y, classify_ne_empty _⟩
  | some tok =>
    cases hy : (findYValues html).getLast? with
    | none =>
      simp only [_parse_properties_from_html, hs, hy] at h
      by_cases hok : status_map (String.mk tok) = some "ok"
      · rw [if_pos hok] at h
        simp only [Option.some.injEq, Prod.mk.injEq] at h
        rw [← h.1, ← h.2]
        exact ⟨le_refl 0, status_map_getD_ne_empty _ _⟩
      · rw [if_neg hok] at h
        cases h
    | some y =>
      simp only [_parse_properties_from_html, hs, hy, Option.some.injEq,
        Prod.mk.injEq] at h
      rw [← h.1, ← h.2]
      exact ⟨Int.natCast_nonneg y, status_map_getD_ne_empty _ _⟩

/-- Every element of a non-empty list is bounded by its `Math.max`. -/
theorem le_listMaxQ : ∀ (cs : List ℚ) (c x : ℚ), x ∈ c :: cs → x ≤ listMaxQ c cs := by
  intro cs
  induction cs with
  | nil =>
    intro c x hx
    rw [List.mem_singleton.mp hx]
    exact le_refl _
  | cons d ds ih =>
    intro c x hx
    show x ≤ listMaxQ (max c d) ds
    rcases List.mem_cons.mp hx with rfl | hx2
    · exact le_trans (le_max_left x d) (ih (max x d) _ (List.mem_cons_self _ _))
    · rcases List.mem_cons.mp hx2 with rfl | hx3
      · exact le_trans (le_max_right c x) (ih (max c x) _ (List.mem_cons_self _ _))
      · exact ih (max c d) x (List.mem_cons_of_mem _ hx3)

/-- JavaScript `Math.round` of a non-negative value is non-negative. -/
theorem jsRound_nonneg (x : ℚ) (h : 0 ≤ x) : 0 ≤ jsRound x := by
  apply Int.le_floor.mpr
  push_cast
  linarith

/-- The chart-geometry decoder yields a non-negative count and, with the
classifier as fallback, a non-empty status. -/
theorem extract_from_recharts_bounds (chart : Option RechartsChart) (count : Int)
    (page_status : Option String) :
    _extract_from_recharts chart = some (count, page_status) →
    0 ≤ count ∧ page_status.getD (_classify_status count) ≠ "" := by
  intro h
  cases chart with
  | none => cases h
  | some ch =>
    cases hv : ch.yValues with
    | nil => simp [_extract_from_recharts, hv] at h
    | cons v vs =>
      by_cases hym : listMaxQ v vs ≤ 0
      · simp [_extract_from_recharts, hv, hym] at h
      · cases hc : ch.yCoords with
        | nil => simp [_extract_from_recharts, hv, hc, hym] at h
        | cons c0 cs =>
          by_cases hbm : listMaxQ c0 cs ≤ 0
          · simp [_extract_from_recharts, hv, hc, hym, hbm] at h
          · simp only [_extract_from_recharts, hv, hc, if_neg hym, if_neg hbm,
              Option.some.injEq, Prod.mk.injEq] at h
            have hbl : (c0 :: cs).getLast (by simp) ≤ listMaxQ c0 cs :=
              le_listMaxQ cs c0 _ (List.getLast_mem (by simp))
            have hnn : 0 ≤ jsRound (listMaxQ v vs *
                (listMaxQ c0 cs - (c0 :: cs).getLast (by simp)) / listMaxQ c0 cs) := by
              apply jsRound_nonneg
              apply div_nonneg
              · exact mul_nonneg (le_of_lt (lt_of_not_le hym)) (by linarith)
              · exact le_of_lt (lt_of_not_le hbm)
            rw [← h.1, ← h.2]
            refine ⟨hnn, ?_⟩
            simp only [Option.getD_some]
            exact classify_ne_empty _

/-- The live-page extractor's status, with the classifier as fallback, is
never the empty string. -/
theorem extract_from_page_status_ne_empty (page : PageDoc) :
    ((_extract_from_page page).2).getD (_classify_status (_extract_from_page page).1) ≠ "" := by
  cases hp : page.dd_props with
  | some props =>
    simp only [_extract_from_page, hp, _parse_service_properties]
    exact status_map_getD_ne_empty _ _
  | none =>
    cases hh : _parse_properties_from_html page.html with
    | some r =>
      obtain ⟨c, st⟩ := r
      simp only [_extract_from_page, hp, hh]
      exact (parse_properties_from_html_bounds page.html c st hh).2
    | none =>
      cases hr : _extract_from_recharts page.chart with
      | some r =>
        obtain ⟨c, st⟩ := r
        simp only [_extract_from_page, hp, hh, hr]
        exact (extract_from_recharts_bounds page.chart c st hr).2
      | none =>
        cases hb : isSubstr "no current problems".toList (lowerChars page.body_text) with
        | true =>
          simp only [_extract_from_page, hp, hh, hr, hb, if_true, Option.getD_some]
          decide
        | false =>
          simp only [_extract_from_page, hp, hh, hr, hb, if_false, Option.getD_none]
          decide

/-- The live-page extractor's count is non-negative provided the `y` values
of the live embedded object (if one is read) are non-negative. -/
theorem extract_from_page_count_nonneg (page : PageDoc)
    (hy : ∀ props, page.dd_props = some props → ∀ dps, props.data = some dps →
      ∀ p ∈ dps, ∀ y, p.y = some y → 0 ≤ y) :
    0 ≤ (_extract_from_page page).1 := by
  cases hp : page.dd_props with
  | some props =>
    simp only [_extract_from_page, hp, _parse_service_properties]
    cases hd : props.data with
    | none => simp only [hd]; exact le_refl (0 : Int)
    | some dps =>
      simp only [hd]
      cases hl : dps.getLast? with
      | none => simp only [hl]; exact le_refl (0 : Int)
      | some p =>
        simp only [hl]
        cases hpy : p.y with
        | none => simp only [hpy, Option.getD_none]; exact le_refl (0 : Int)
        | some y =>
          simp only [hpy, Option.getD_some]
          exact hy props hp dps hd p (List.mem_of_mem_getLast? hl) y hpy
  | none =>
    cases hh : _parse_properties_from_html page.html with
    | some r =>
      obtain ⟨c, st⟩ := r
      simp only [_extract_from_page, hp, hh]
      exact (parse_properties_from_html_bounds page.html c st hh).1
    | none =>
      cases hr : _extract_from_recharts page.chart with
      | some r =>
        obtain ⟨c, st⟩ := r
        simp only [_extract_from_page, hp, hh, hr]
        exact (extract_from_recharts_bounds page.chart c st hr).1
      | none =>
        simp only [_extract_from_page, hp, hh, hr]
        cases hb : isSubstr "no current problems".toList (lowerChars page.body_text) with
        | true => exact le_refl (0 : Int)
        | false => exact le_refl (0 : Int)

/-- Counterexample to C8 as stated: the live embedded-object path copies
the page's `y` value without clamping, so a page whose last data point has
`y = -1` produces a `ScrapeResult` with a negative `report_count` on a
non-error tier. -/
theorem scrape_playwright_negative_count :
    (_do_scrape_playwright "mtn"
        ⟨some ⟨some "success", some [⟨"t", some (-1)⟩]⟩, [], none, []⟩).report_count = -1
    ∧ (_do_scrape_playwright "mtn"
        ⟨some ⟨some "success", some [⟨"t", some (-1)⟩]⟩, [], none, []⟩).source = "playwright"
    ∧ ¬ (0 : Int) ≤ -1 := by
  decide

/-- Claim C8 as amended: every `ScrapeResult` of the Tier-1 extraction
paths (static regex, text heuristic, fallback) has a non-negative
`report_count`; the Tier-2 paths yield a non-negative `report_count`
whenever the `y` values of a live embedded object are non-negative (the
code applies no clamping, see the counterexample); and on both tiers the
`status` field is never empty (the source tier of these results is "curl"
or "playwright", never "error"). -/
theorem scrape_result_invariants :
    (∀ service response result, _do_scrape_curl service response = Except.ok result →
        0 ≤ result.report_count ∧ result.status ≠ "" ∧ result.source = "curl")
    ∧ (∀ service page, (_do_scrape_playwright service page).status ≠ ""
        ∧ (_do_scrape_playwright service page).source = "playwright")
    ∧ (∀ service page,
        (∀ props, page.dd_props = some props → ∀ dps, props.data = some dps →
          ∀ p ∈ dps, ∀ y, p.y = some y → 0 ≤ y) →
        0 ≤ (_do_scrape_playwright service page).report_count) := by
  refine ⟨?_, ?_, ?_⟩
  · intro service response result h
    unfold _do_scrape_curl at h
    by_cases h200 : response.status_code ≠ 200
    · rw [if_pos h200] at h
      cases h
    · rw [if_neg h200] at h
      cases hfind : _CF_CHALLENGE_MARKERS.find?
          (fun m => isSubstr m.toList (lowerChars response.text)) with
      | some marker =>
        simp only [hfind] at h
        cases h
      | none =>
        simp only [hfind] at h
        cases hparse : _parse_properties_from_html response.text with
        | some r =>
          obtain ⟨c, st⟩ := r
          simp only [hparse] at h
          cases h
          exact ⟨(parse_properties_from_html_bounds response.text c st hparse).1,
            (parse_properties_from_html_bounds response.text c st hparse).2, rfl⟩
        | none =>
          simp only [hparse] at h
          cases hnext : isSubstr "_next/static".toList response.text
              && !isSubstr "window.DD".toList response.text with
          | true =>
            simp only [hnext, if_true] at h
            cases h
          | false =>
            simp only [hnext, if_false] at h
            cases hnp : isSubstr "no current problems".toList
                (lowerChars (stripTags response.text)) with
            | true =>
              simp only [hnp, if_true] at h
              cases h
              exact ⟨le_refl (0 : Int), (by decide : ("ok" : String) ≠ ""), rfl⟩
            | false =>
              simp only [hnp, if_false] at h
              cases hrt : _parse_report_text (stripTags response.text) with
              | some count =>
                simp only [hrt] at h
                cases h
                exact ⟨Int.natCast_nonneg count, classify_ne_empty _, rfl⟩
              | none =>
                simp only [hrt] at h
                cases h
                exact ⟨le_refl (0 : Int), (by decide : ("ok" : String) ≠ ""), rfl⟩
  · intro service page
    exact ⟨extract_from_page_status_ne_empty page, rfl⟩
  · intro service page hy
    exact extract_from_page_count_nonneg page hy

/-- Witness for C8 (amended): a Tier-1 text-heuristic result and a Tier-2
result with no live embedded object. -/
theorem scrape_result_invariants_witness :
    (0 ≤ (⟨"mtn", 42, "", "warning", none, "curl"⟩ : ScrapeResult).report_count
      ∧ (⟨"mtn", 42, "", "warning", none, "curl"⟩ : ScrapeResult).status ≠ ""
      ∧ (⟨"mtn", 42, "", "warning", none, "curl"⟩ : ScrapeResult).source = "curl")
    ∧ 0 ≤ (_do_scrape_playwright "mtn"
        ⟨none, [], none, "all good".toList⟩).report_count :=
  ⟨scrape_result_invariants.1 "mtn" ⟨200, "<p>42 reports</p>".toList⟩ _ (by rfl),
   scrape_result_invariants.2.2 "mtn" ⟨none, [], none, "all good".toList⟩
     (fun props hp => Option.noConfusion hp)⟩

end DDBot





